import Mathlib

/-!
Verification of the Renogy BLE integration (`custom_components/renogy`).

Each Python function relevant to the claims is embedded as an executable
Lean definition, translated directly from the source:

* `utils.py`   — `ModbusUtils.crc16`, `ModbusUtils.create_read_request`
* `device.py`  — `RenogyBLEDevice.update_availability`, `is_available`,
                 the validation prefix of `update_parsed_data`
* `parser.py`  — `parse_shunt_packet`, `parse_shunt_ble_packet`,
                 `parse_shunt_ble_messages`
* `ble.py`     — the command loop of `_read_modbus_device` and the
                 control flow of `_read_shunt_device`

Bytes are modelled as `Nat` with explicit bounds where overflow matters.
Python floats are modelled as exact rationals (`ℚ`).
-/

namespace Renogy

/-! ## `utils.py` : `ModbusUtils.crc16` (lines 22–38) -/

/-- One iteration of the inner loop of `ModbusUtils.crc16`:
`if crc & 0x0001: crc = (crc >> 1) ^ 0xA001 else: crc >>= 1`. -/
def crcRound (crc : Nat) : Nat :=
  if crc &&& 0x0001 ≠ 0 then (crc >>> 1) ^^^ 0xA001 else crc >>> 1

/-- Runs `n` iterations of the inner loop (the source runs it 8 times per byte). -/
def crcRounds : Nat → Nat → Nat
  | 0, crc => crc
  | n + 1, crc => crcRounds n (crcRound crc)

/-- Feed one input byte: `crc ^= pos` followed by 8 inner-loop iterations. -/
def crcByte (crc b : Nat) : Nat := crcRounds 8 (crc ^^^ b)

/-- The 16-bit running value of `ModbusUtils.crc16` over the whole input,
starting from `0xFFFF`. -/
def crcValue (data : List Nat) : Nat := data.foldl crcByte 0xFFFF

/-- Source `ModbusUtils.crc16`: returns the pair `(crc & 0xFF, (crc >> 8) & 0xFF)`. -/
def crc16 (data : List Nat) : Nat × Nat :=
  (crcValue data &&& 0xFF, (crcValue data >>> 8) &&& 0xFF)

/-! ## `utils.py` : `ModbusUtils.create_read_request` (lines 40–64) -/

/-- Source `ModbusUtils.create_read_request`: 6-byte header followed by the CRC of
that header, low byte first. -/
def create_read_request (device_id function_code register word_count : Nat) :
    List Nat :=
  let frame : List Nat :=
    [device_id, function_code,
     (register >>> 8) &&& 0xFF, register &&& 0xFF,
     (word_count >>> 8) &&& 0xFF, word_count &&& 0xFF]
  frame ++ [(crc16 frame).1, (crc16 frame).2]

/-! ## `device.py` : `RenogyBLEDevice` availability (lines 38–129) -/

/-- The availability-related fields of `RenogyBLEDevice`.  Timestamps
(`datetime.now()` values) are abstract `Nat` ticks. -/
structure RenogyBLEDevice where
  failure_count : Nat
  available : Bool
  last_unavailable_time : Option Nat
deriving DecidableEq, Repr

/-- Value of `self.max_failures`, set to 3 in `__init__`. -/
def max_failures : Nat := 3

/-- Availability fields of a freshly constructed device (`__init__`). -/
def initDevice : RenogyBLEDevice :=
  { failure_count := 0, available := true, last_unavailable_time := none }

/-- Source `RenogyBLEDevice.is_available` (device.py lines 60–63). -/
def is_available (d : RenogyBLEDevice) : Bool :=
  d.available && decide (d.failure_count < max_failures)

/-- Source `RenogyBLEDevice.update_availability` (device.py lines 88–129); `now`
stands for the value of `datetime.now()` during the call. -/
def update_availability (d : RenogyBLEDevice) (success : Bool) (now : Nat) :
    RenogyBLEDevice :=
  if success then
    { failure_count := 0,
      available := true,
      last_unavailable_time :=
        if d.available then d.last_unavailable_time else none }
  else
    if max_failures ≤ d.failure_count + 1 ∧ d.available = true then
      { failure_count := d.failure_count + 1, available := false,
        last_unavailable_time := some now }
    else
      { failure_count := d.failure_count + 1, available := d.available,
        last_unavailable_time := d.last_unavailable_time }

/-- States reachable from a fresh device through `update_availability`. -/
inductive Reachable : RenogyBLEDevice → Prop
  | init : Reachable initDevice
  | step (d : RenogyBLEDevice) (success : Bool) (now : Nat) :
      Reachable d → Reachable (update_availability d success now)

/-! ## Python value and dict model for `parser.py` -/

/-- Decidable equality of `Except` results, for evaluating the decoders
on concrete packets. -/
instance exceptDecEq {ε α : Type} [DecidableEq ε] [DecidableEq α] :
    DecidableEq (Except ε α)
  | .ok a, .ok b =>
      if h : a = b then isTrue (by rw [h]) else isFalse (by simp [h])
  | .ok _, .error _ => isFalse (by simp)
  | .error _, .ok _ => isFalse (by simp)
  | .error e, .error f =>
      if h : e = f then isTrue (by rw [h]) else isFalse (by simp [h])

/-- A Python metric value: numbers (ints and floats, modelled as exact
rationals), strings, or `None` (stored by some group branches when a
read runs off the end of the payload). -/
inductive MVal where
  | num (q : ℚ)
  | str (s : String)
  | pynone
deriving DecidableEq, Repr

/-- A Python dict of metrics: association list in insertion order with
unique keys (maintained by `dictSet`). -/
abbrev Metrics := List (String × MVal)

/-- Assignment `d[k] = v`: overwrite in place if the key exists, else append. -/
def dictSet (m : Metrics) (k : String) (v : MVal) : Metrics :=
  match m with
  | [] => [(k, v)]
  | (k2, v2) :: rest =>
      if k2 = k then (k2, v) :: rest else (k2, v2) :: dictSet rest k v

/-- Lookup `k in d` / `d.get(k)`: first binding found. -/
def dictGet (m : Metrics) (k : String) : Option MVal :=
  match m with
  | [] => none
  | (k2, v) :: rest => if k2 = k then some v else dictGet rest k

/-- Update `d1.update(d2)`: write every binding of `d2` into `d1`, in order. -/
def dictUpdate (m1 m2 : Metrics) : Metrics :=
  m2.foldl (fun acc kv => dictSet acc kv.1 kv.2) m1

/-- Python truthiness of a metric value (`0`, `0.0`, `""` and `None` are
falsy). -/
def truthy : MVal → Bool
  | .num q => q ≠ 0
  | .str s => s ≠ ""
  | .pynone => false

/-- Python `a or b` on `d.get(...)` results.  A stored `None` behaves exactly
like a missing key for both `or` and `is not None`, so `pyGet` (below)
already collapses it to `none`. -/
def pyOr (a b : Option MVal) : Option MVal :=
  match a with
  | some v => if truthy v then some v else b
  | none => b

/-- Lookup `d.get(k)` as used by the merge step: a stored `None` is
indistinguishable from a missing key there. -/
def pyGet (m : Metrics) (k : String) : Option MVal :=
  match dictGet m k with
  | some .pynone => none
  | r => r

/-- Numeric view of a metric value (`float(v)`); the merge step only ever
applies it to values that are numbers. -/
def valQ : MVal → ℚ
  | .num q => q
  | .str _ => 0
  | .pynone => 0

/-- Python `round(q, n)` on an exact rational: round half to even at `n`
decimal places. -/
def pyRound (q : ℚ) (n : Nat) : ℚ :=
  let s : ℚ := q * (10 : ℚ) ^ n
  let f : ℤ := ⌊s⌋
  let r : ℤ :=
    if s - f < 1 / 2 then f
    else if s - f > 1 / 2 then f + 1
    else if f % 2 = 0 then f else f + 1
  (r : ℚ) / (10 : ℚ) ^ n

/-- Python `int.from_bytes(bs, "big")`. -/
def beBytes (bs : List Nat) : Nat := bs.foldl (fun a b => 256 * a + b) 0

/-- Python `int.from_bytes(bs, "little")`. -/
def leBytes (bs : List Nat) : Nat := beBytes bs.reverse

/-- Two's-complement reading of a `width`-byte unsigned value
(`signed=True` in `int.from_bytes`). -/
def signedOf (width : Nat) (u : Nat) : ℤ :=
  if 2 ^ (8 * width - 1) ≤ u then (u : ℤ) - 2 ^ (8 * width) else (u : ℤ)

/-- Python `bytes.decode("ascii", errors="ignore")`: keep only bytes < 128. -/
def asciiDecode (bs : List Nat) : List Char :=
  (bs.filter (· < 128)).map (fun b => Char.ofNat b)

/-- Python `str.strip()` whitespace test. -/
def isPySpace (c : Char) : Bool :=
  c = ' ' || c = '\t' || c = '\n' || c = '\r' || c = '\x0b' || c = '\x0c'

/-- Python `str.strip()`. -/
def pyStrip (cs : List Char) : List Char :=
  ((cs.dropWhile isPySpace).reverse.dropWhile isPySpace).reverse

/-- Source `_bytes_to_int` (parser.py lines 11–17).  Every call site passes a
float `scale`, so a successful result is always `round(raw * scale, 2)`.
It always reads big-endian. -/
def bytes_to_int (bs : List Nat) (offset length : Nat) (signed : Bool)
    (scale : ℚ) : Option ℚ :=
  if bs.length < offset + length then none
  else
    let raw : ℤ :=
      if signed then signedOf length (beBytes ((bs.drop offset).take length))
      else (beBytes ((bs.drop offset).take length) : ℤ)
    some (pyRound ((raw : ℚ) * scale) 2)

/-! ## `parser.py` : `parse_shunt_packet` (lines 20–54) -/

/-- Result record of `parse_shunt_packet` (its fixed-shape metrics dict). -/
structure ShuntPacketMetrics where
  bus_voltage : ℚ
  shunt_drop : ℚ
  current : ℚ
  consumed_ah : ℚ
  state_of_charge : Nat
  temperature : ℤ
  extra_flags : Option Nat
deriving DecidableEq, Repr

/-- Source `parse_shunt_packet` (parser.py lines 20–54). -/
def parse_shunt_packet (data : List Nat) : Except String ShuntPacketMetrics :=
  if data.length < 12 then .error "packet too short"
  else if data.length < 2 + 10 then .error "packet too short"
  else
    .ok { bus_voltage := (beBytes ((data.drop 2).take 2) : ℚ) / 1000,
          shunt_drop := (beBytes ((data.drop 4).take 2) : ℚ) / 1000,
          current := ((signedOf 2 (beBytes ((data.drop 6).take 2)) : ℚ)) / 1000,
          consumed_ah := (beBytes ((data.drop 8).take 2) : ℚ) / 100,
          state_of_charge := max 0 (min (data.getD 10 0) 100),
          temperature := (data.getD 11 0 : ℤ) - 40,
          extra_flags :=
            if 12 < data.length then some (data.getD 12 0) else none }

/-! ## `parser.py` : `parse_shunt_ble_packet` (lines 57–174) -/

/-- The `packet_type == 0x10` branch (parser.py lines 77–81). -/
def parseModelId (payload : List Nat) : Metrics :=
  [("packetType", .str "0x10"),
   ("model_id", .str (String.mk (pyStrip (asciiDecode payload))))]

/-- The `packet_type == 0x44` branch (parser.py lines 83–110). -/
def parseNumeric44 (payload : List Nat) : Except String Metrics :=
  if payload.length < 11 then .error "payload too short"
  else
    let bus_v : ℚ := (beBytes (payload.take 2) : ℚ) / 1000
    let curr_a : ℚ :=
      (signedOf 2 (beBytes ((payload.drop 4).take 2)) : ℚ) / 1000
    .ok [("packetType", .str "0x44"),
         ("bus_voltage", .num bus_v),
         ("shunt_drop", .num ((beBytes ((payload.drop 2).take 2) : ℚ) / 1000)),
         ("current", .num curr_a),
         ("consumed_ah", .num ((beBytes ((payload.drop 6).take 2) : ℚ) / 100)),
         ("state_of_charge", .num (max 0 (min (payload.getD 8 0) 100) : Nat)),
         ("temperature", .num ((payload.getD 9 0 : ℤ) - 40 : ℤ)),
         ("extra_flags", .num (payload.getD 10 0 : Nat)),
         ("power_watts", .num (pyRound (bus_v * curr_a) 2))]

/-- The group-tagged format (parser.py lines 115–174).  The
`f"0x{group_id:02X}"` tag is written out per branch since every branch
fixes `group_id`. -/
def parseGroup (group_id : Nat) (payload : List Nat) :
    Except String Metrics :=
  if group_id = 0x03 then
    .ok [("packetType", .str "0x03"),
         ("state_of_charge",
          .num (pyRound ((leBytes ((payload.drop 3).take 2) : ℚ) * (0.1 : ℚ)) 1))]
  else if group_id = 0x05 then
    .ok [("packetType", .str "0x05"),
         ("battery_voltage",
          .num (pyRound ((leBytes ((payload.drop 3).take 4) : ℚ) * (0.001 : ℚ)) 3))]
  else if group_id = 0x04 then
    .ok (let amps : ℚ :=
           pyRound ((signedOf 3 (leBytes ((payload.drop 3).take 3)) : ℚ) *
             (0.001 : ℚ)) 3
         let m : Metrics :=
           [("packetType", .str "0x04"), ("discharge_amps", .num amps)]
         if (dictGet m "battery_voltage").isSome then
           dictSet m "power_watts"
             (.num (pyRound
               (valQ ((dictGet m "battery_voltage").getD (.num 0)) * amps) 2))
         else m)
  else if group_id = 0x02 then
    .ok (match bytes_to_int payload 3 4 false 1 with
         | some mins =>
             [("packetType", .str "0x02"),
              ("remaining_time_h", .num (pyRound (mins / 60) 2))]
         | none => [("packetType", .str "0x02")])
  else if group_id = 0x0B then
    .ok [("packetType", .str "0x0B"),
         ("consumed_Ah",
          match bytes_to_int payload 3 4 false (0.1 : ℚ) with
          | some q => .num q
          | none => .pynone)]
  else if group_id = 0x06 then
    .ok (match bytes_to_int payload 3 2 false 1 with
         | some mins =>
             [("packetType", .str "0x06"),
              ("discharge_duration_h", .num (pyRound (mins / 60) 2))]
         | none => [("packetType", .str "0x06")])
  else if group_id = 0x0D then
    .ok [("packetType", .str "0x0D"),
         ("temperature_C",
          match bytes_to_int payload 3 2 true (0.1 : ℚ) with
          | some q => .num q
          | none => .pynone)]
  else if group_id = 0x07 then
    .ok [("packetType", .str "0x07"),
         ("starter_volts",
          match bytes_to_int payload 3 4 false (0.001 : ℚ) with
          | some q => .num q
          | none => .pynone)]
  else .error "Unsupported group id"

/-- Source `parse_shunt_ble_packet` (parser.py lines 57–174), assembled from the
branch helpers above. -/
def parse_shunt_ble_packet (data : List Nat) : Except String Metrics :=
  if 2 ≤ data.length ∧ data.take 2 = [0x41, 0x54] then
    .error "status packet"
  else if data.length < 4 then .error "packet too short"
  else if data.getD 2 0 = 0x10 then .ok (parseModelId (data.drop 3))
  else if data.getD 2 0 = 0x44 then parseNumeric44 (data.drop 3)
  else parseGroup (data.getD 3 0) (data.drop 4)

/-! ## `parser.py` : `parse_shunt_ble_messages` (lines 177–203) -/

/-- The merge loop of `parse_shunt_ble_messages`: decode each payload,
skip failures, `result.update(metrics)`. -/
def mergeMessages (messages : List (List Nat)) : Metrics :=
  messages.foldl
    (fun acc msg =>
      match parse_shunt_ble_packet msg with
      | .ok m => dictUpdate acc m
      | .error _ => acc) []

/-- Source `parse_shunt_ble_messages` (parser.py lines 177–203): merge, then the
`power_watts` post-step with Python `or` (truthiness) key selection. -/
def parse_shunt_ble_messages (messages : List (List Nat)) : Metrics :=
  match pyOr (pyGet (mergeMessages messages) "battery_voltage")
          (pyGet (mergeMessages messages) "bus_voltage"),
        pyOr (pyGet (mergeMessages messages) "discharge_amps")
          (pyGet (mergeMessages messages) "current") with
  | some v, some a =>
      dictSet (mergeMessages messages) "power_watts"
        (.num (pyRound (valQ v * valQ a) 2))
  | _, _ => mergeMessages messages


/-! ## `device.py` : validation prefix of `update_parsed_data`
(lines 131–216) -/

/-- Outcome of the validation prefix of `update_parsed_data`: `fail`
means `False` is returned before the parser is consulted; `proceed`
means control reaches the `RenogyParser.parse` call. -/
inductive ValidationOutcome where
  | fail
  | proceed
deriving DecidableEq, Repr

/-- The validation prefix of `RenogyBLEDevice.update_parsed_data`
(device.py lines 139–182): empty-data check, minimum length 5, length
against the byte-count header, and the Modbus error bit in the function
code, in source order.  Everything past these checks is the external
`renogy_ble` library. -/
def update_parsed_data_validation (raw_data : List Nat) : ValidationOutcome :=
  if raw_data.length = 0 then .fail
  else if raw_data.length < 5 then .fail
  else if raw_data.length < 3 + raw_data.getD 2 0 + 2 then .fail
  else if raw_data.getD 1 0 &&& 0x80 ≠ 0 then .fail
  else .proceed

/-- Source `update_parsed_data` (device.py lines 131–216) as a boolean:
validation prefix, then the external `RenogyParser.parse` call whose
outcome (non-empty parse without exception) is the abstract `parserOk`. -/
def update_parsed_data (raw_data : List Nat) (parserOk : Bool) : Bool :=
  match update_parsed_data_validation raw_data with
  | .fail => false
  | .proceed => parserOk

/-! ## `ble.py` : `_read_modbus_device` (lines 518–702) -/

/-- Transport outcome of one command inside the `_read_modbus_device`
loop: either the notification wait timed out before `expected_len` bytes
arrived, or a complete response `raw` was assembled and handed to
`update_parsed_data`, with `parserOk` the outcome of the external parser
call inside it. -/
inductive CmdOutcome where
  | timeout
  | response (raw : List Nat) (parserOk : Bool)

/-- Whether one command of the loop sets `any_command_succeeded`. -/
def cmdSuccess : CmdOutcome → Bool
  | .timeout => false
  | .response raw parserOk => update_parsed_data raw parserOk

/-- The command loop of `_read_modbus_device` (ble.py lines 565–644):
a timeout logs and `continue`s to the next command; a response is parsed
and ORed into `any_command_succeeded` (the accumulator `acc`). -/
def readModbusLoop (outcomes : List CmdOutcome) (acc : Bool) : Bool :=
  match outcomes with
  | [] => acc
  | .timeout :: rest => readModbusLoop rest acc
  | .response raw parserOk :: rest =>
      readModbusLoop rest (acc || update_parsed_data raw parserOk)

/-- Assignment `success = any_command_succeeded` after the loop (ble.py line 646). -/
def read_modbus_success (outcomes : List CmdOutcome) : Bool :=
  readModbusLoop outcomes false

/-- Source `_read_modbus_device` (ble.py lines 518–702) restricted to its
success flag and availability effect: on a connection error the device is
marked failed (lines 537–543); otherwise the command loop runs and
`device.update_availability(final_success, ...)` is always executed
afterwards (lines 681–696). -/
def read_modbus_device (d : RenogyBLEDevice) (conn : Bool)
    (outcomes : List CmdOutcome) (now : Nat) : Bool × RenogyBLEDevice :=
  if conn then
    (read_modbus_success outcomes,
     update_availability d (read_modbus_success outcomes) now)
  else (false, update_availability d false now)

/-! ## `ble.py` : `_read_shunt_device` (lines 414–516) -/

/-- Transport outcome of a shunt exchange: connection failure
(ble.py 424–430), timeout waiting for the first notification
(ble.py 477–481), an exception later in the session body
(ble.py 506–510), or received notification packets plus the
manufacturer-data payload from the advertisement. -/
inductive ShuntTransport where
  | connectError
  | notifyTimeout
  | bodyError
  | notified (packets : List (List Nat)) (manu : List Nat)

/-- Source `_read_shunt_device` (ble.py lines 414–516) restricted to its success
flag and availability effect.  On `notifyTimeout` the inner
`except asyncio.TimeoutError` handler returns `False` directly, so
`update_availability` is not called and the device state is unchanged. -/
def read_shunt_device (d : RenogyBLEDevice) (tr : ShuntTransport)
    (now : Nat) : Bool × RenogyBLEDevice :=
  match tr with
  | .connectError => (false, update_availability d false now)
  | .notifyTimeout => (false, d)
  | .bodyError => (false, update_availability d false now)
  | .notified _ _ => (true, update_availability d true now)

/-! ### Arithmetic facts about the CRC loop -/

theorem and_255_eq_mod (x : Nat) : x &&& 255 = x % 256 := by
  have h := Nat.and_pow_two_sub_one_eq_mod x 8
  norm_num at h
  exact h

theorem xor_mod_two_pow_self (n c : Nat) : c ^^^ c % 2 ^ n = c >>> n <<< n := by
  apply Nat.eq_of_testBit_eq
  intro i
  simp only [Nat.testBit_xor, Nat.testBit_mod_two_pow, Nat.testBit_shiftLeft,
    Nat.testBit_shiftRight]
  by_cases h : i < n
  · have h2 : ¬ (i ≥ n) := by omega
    simp [h, h2]
  · have h2 : i ≥ n := by omega
    have h3 : n + (i - n) = i := by omega
    simp [h, h2, h3]

theorem crcRound_two_mul (k : Nat) : crcRound (2 * k) = k := by
  unfold crcRound
  have h1 : (2 * k) &&& 1 = 0 := by rw [Nat.and_one_is_mod]; omega
  have h2 : (2 * k) >>> 1 = k := by
    rw [Nat.shiftRight_eq_div_pow]; omega
  simp [h1, h2]

theorem crcRounds_two_pow_mul : ∀ n k : Nat, crcRounds n (2 ^ n * k) = k
  | 0, k => by simp [crcRounds]
  | n + 1, k => by
    have h : (2 : Nat) ^ (n + 1) * k = 2 * (2 ^ n * k) := by ring
    rw [crcRounds, h, crcRound_two_mul]
    exact crcRounds_two_pow_mul n k

theorem crcByte_low (c : Nat) : crcByte c (c &&& 0xFF) = c >>> 8 := by
  unfold crcByte
  have h1 : c &&& 0xFF = c % 2 ^ 8 := by rw [and_255_eq_mod]; norm_num
  rw [h1, xor_mod_two_pow_self, Nat.shiftLeft_eq,
    show c >>> 8 * 2 ^ 8 = 2 ^ 8 * (c >>> 8) by ring]
  exact crcRounds_two_pow_mul 8 (c >>> 8)

theorem crcByte_self (c : Nat) : crcByte c c = 0 := by
  unfold crcByte
  rw [Nat.xor_self]
  decide

theorem crc_digest {c : Nat} (h : c < 65536) :
    crcByte (crcByte c (c &&& 0xFF)) ((c >>> 8) &&& 0xFF) = 0 := by
  rw [crcByte_low]
  have hlt : c >>> 8 < 256 := by rw [Nat.shiftRight_eq_div_pow]; omega
  have h2 : (c >>> 8) &&& 0xFF = c >>> 8 := by rw [and_255_eq_mod]; omega
  rw [h2, crcByte_self]

theorem xor_lt_65536 {x y : Nat} (hx : x < 65536) (hy : y < 65536) :
    x ^^^ y < 65536 := by
  have h := Nat.xor_lt_two_pow (n := 16) (x := x) (y := y)
  norm_num at h
  exact h hx hy

theorem crcRound_lt {c : Nat} (h : c < 65536) : crcRound c < 65536 := by
  unfold crcRound
  have h1 : c >>> 1 < 65536 := by rw [Nat.shiftRight_eq_div_pow]; omega
  split
  · exact xor_lt_65536 h1 (by norm_num)
  · exact h1

theorem crcRounds_lt : ∀ n : Nat, ∀ {c : Nat}, c < 65536 → crcRounds n c < 65536
  | 0, _, h => h
  | n + 1, _, h => crcRounds_lt n (crcRound_lt h)

theorem crcByte_lt {c b : Nat} (hc : c < 65536) (hb : b < 65536) :
    crcByte c b < 65536 := by
  unfold crcByte
  apply crcRounds_lt
  exact xor_lt_65536 hc hb

theorem foldl_crcByte_lt :
    ∀ (l : List Nat) (a : Nat), a < 65536 → (∀ b ∈ l, b < 256) →
      l.foldl crcByte a < 65536
  | [], _, ha, _ => ha
  | b :: l, a, ha, hl => by
    rw [List.foldl_cons]
    refine foldl_crcByte_lt l _ (crcByte_lt ha ?_) (fun x hx => hl x (by simp [hx]))
    have := hl b (by simp)
    omega

/-- C1: `ModbusUtils.crc16` is the standard reflected Modbus CRC16 (init
`0xFFFF`, byte XORed into the low byte, 8 shift rounds with polynomial
`0xA001`, result returned as the (low byte, high byte) pair): on the empty
input it returns `(0xFF, 0xFF)`, it is deterministic, and for every byte
sequence, appending its two CRC bytes and re-running the CRC over the
extended sequence yields zero. -/
theorem crc16_modbus_spec (data : List Nat) (h : ∀ b ∈ data, b < 256) :
    crc16 [] = (0xFF, 0xFF)
    ∧ (∀ d2 : List Nat, d2 = data → crc16 d2 = crc16 data)
    ∧ crcValue (data ++ [(crc16 data).1, (crc16 data).2]) = 0 := by
  refine ⟨by decide, fun d2 hd => by rw [hd], ?_⟩
  have hc : crcValue data < 65536 := foldl_crcByte_lt data 0xFFFF (by norm_num) h
  show crcValue (data ++ [crcValue data &&& 0xFF, (crcValue data >>> 8) &&& 0xFF]) = 0
  unfold crcValue
  rw [List.foldl_append, List.foldl_cons, List.foldl_cons, List.foldl_nil]
  exact crc_digest hc

/-- Witness for C1 at the concrete input `[0x01, 0x03]`. -/
theorem crc16_modbus_spec_witness :
    (∀ b ∈ [0x01, 0x03], b < 256)
    ∧ (crc16 [] = (0xFF, 0xFF)
       ∧ (∀ d2 : List Nat, d2 = [0x01, 0x03] → crc16 d2 = crc16 [0x01, 0x03])
       ∧ crcValue ([0x01, 0x03] ++
           [(crc16 [0x01, 0x03]).1, (crc16 [0x01, 0x03]).2]) = 0) :=
  ⟨by decide, crc16_modbus_spec [0x01, 0x03] (by decide)⟩

/-- C2: `ModbusUtils.create_read_request` returns exactly 8 bytes:
`[device_id, function_code, register_hi, register_lo, count_hi, count_lo,
crc_lo, crc_hi]`, register and word count big-endian, CRC of the first
six bytes appended low byte first; `build_read_request(0xFF, 3, 256, 34)`
starts with `[0xFF, 0x03, 0x01, 0x00, 0x00, 0x22]`. -/
theorem create_read_request_spec (d f r w : Nat) (hr : r < 65536)
    (hw : w < 65536) :
    create_read_request d f r w =
      [d, f, r / 256, r % 256, w / 256, w % 256] ++
        [(crc16 [d, f, r / 256, r % 256, w / 256, w % 256]).1,
         (crc16 [d, f, r / 256, r % 256, w / 256, w % 256]).2]
    ∧ (create_read_request d f r w).length = 8
    ∧ (create_read_request 0xFF 3 256 34).take 6 =
        [0xFF, 0x03, 0x01, 0x00, 0x00, 0x22] := by
  have hr8 : r >>> 8 = r / 256 := by rw [Nat.shiftRight_eq_div_pow]
  have hw8 : w >>> 8 = w / 256 := by rw [Nat.shiftRight_eq_div_pow]
  have hrhi : (r >>> 8) &&& 0xFF = r / 256 := by rw [and_255_eq_mod, hr8]; omega
  have hwhi : (w >>> 8) &&& 0xFF = w / 256 := by rw [and_255_eq_mod, hw8]; omega
  have hrlo : r &&& 0xFF = r % 256 := by rw [and_255_eq_mod]
  have hwlo : w &&& 0xFF = w % 256 := by rw [and_255_eq_mod]
  refine ⟨?_, ?_, by decide⟩
  · unfold create_read_request
    rw [hrhi, hwhi, hrlo, hwlo]
  · unfold create_read_request
    simp

/-- Witness for C2 at `device_id = 0xFF`, `function_code = 3`,
`register = 256`, `word_count = 34`. -/
theorem create_read_request_spec_witness :
    (256 < 65536 ∧ 34 < 65536)
    ∧ (create_read_request 0xFF 3 256 34 =
        [0xFF, 3, 1, 0, 0, 34] ++
          [(crc16 [0xFF, 3, 1, 0, 0, 34]).1, (crc16 [0xFF, 3, 1, 0, 0, 34]).2]
       ∧ (create_read_request 0xFF 3 256 34).length = 8
       ∧ (create_read_request 0xFF 3 256 34).take 6 =
           [0xFF, 0x03, 0x01, 0x00, 0x00, 0x22]) :=
  ⟨⟨by norm_num, by norm_num⟩,
    create_read_request_spec 0xFF 3 256 34 (by norm_num) (by norm_num)⟩


/-- In every reachable state the `available` flag agrees with
`failure_count < max_failures`. -/
theorem reachable_available_eq {d : RenogyBLEDevice} (h : Reachable d) :
    d.available = decide (d.failure_count < max_failures) := by
  induction h with
  | init => rfl
  | step e success now _ ih =>
    unfold update_availability
    split
    · simp [max_failures]
    · split
      · next hc =>
        simp only [max_failures] at hc ⊢
        have h1 : ¬ (e.failure_count + 1 < 3) := by omega
        simp [h1]
      · next hc =>
        simp only [max_failures] at hc ih ⊢
        by_cases hav : e.available = true
        · have h1 : e.failure_count + 1 < 3 := by
            by_contra h3
            exact hc ⟨by omega, hav⟩
          simp [hav, h1]
        · have hav2 : e.available = false := by
            cases hb : e.available
            · rfl
            · exact absurd hb hav
          have h2 : ¬ (e.failure_count < 3) := by
            rw [hav2] at ih
            intro h3
            simp [h3] at ih
          have h3 : ¬ (e.failure_count + 1 < 3) := by omega
          simp [hav2, h3]

theorem three_failures {d : RenogyBLEDevice} (h : Reachable d)
    (ha : is_available d = true) (t1 t2 t3 : Nat) :
    is_available (update_availability (update_availability
        (update_availability d false t1) false t2) false t3) = false
    ∧ (update_availability (update_availability
        (update_availability d false t1) false t2)
          false t3).last_unavailable_time ≠ none := by
  have hav := reachable_available_eq h
  obtain ⟨fc, av, t⟩ := d
  simp only [is_available, max_failures] at ha hav ⊢
  have hav2 : av = true := (Bool.and_eq_true_iff.mp ha).1
  have hfc : fc < 3 := of_decide_eq_true (Bool.and_eq_true_iff.mp ha).2
  subst hav2
  interval_cases fc <;> simp [update_availability, max_failures]

theorem success_resets {d : RenogyBLEDevice} (h : Reachable d)
    (hu : is_available d = false) (t : Nat) :
    is_available (update_availability d true t) = true
    ∧ (update_availability d true t).last_unavailable_time = none := by
  have hav := reachable_available_eq h
  have hfalse : d.available = false := by
    cases hb : d.available
    · rfl
    · rw [hb] at hav
      have h2 : d.failure_count < max_failures := of_decide_eq_true hav.symm
      rw [is_available, hb] at hu
      simp [h2] at hu
  simp [update_availability, is_available, hfalse, max_failures]

/-- C3: with `max_failures = 3`, three consecutive failed
`update_availability` calls starting from a reachable available state flip
`is_available` from true to false and record the unavailable timestamp; a
single successful update resets the failure counter to zero and, if the
device was unavailable, makes it available again and clears the timestamp;
and in every state reachable through `update_availability`, `is_available`
holds iff `failure_count < 3`. -/
theorem availability_hysteresis_spec :
    (∀ d, Reachable d →
      (is_available d = true ↔ d.failure_count < max_failures))
    ∧ (∀ d t1 t2 t3, Reachable d → is_available d = true →
        is_available (update_availability (update_availability
            (update_availability d false t1) false t2) false t3) = false
        ∧ (update_availability (update_availability
            (update_availability d false t1) false t2)
              false t3).last_unavailable_time ≠ none)
    ∧ (∀ d t, (update_availability d true t).failure_count = 0)
    ∧ (∀ d t, Reachable d → is_available d = false →
        is_available (update_availability d true t) = true
        ∧ (update_availability d true t).last_unavailable_time = none) := by
  refine ⟨?_, ?_, ?_, ?_⟩
  · intro d hd
    have hav := reachable_available_eq hd
    rw [is_available, hav]
    constructor
    · intro h1
      exact of_decide_eq_true (Bool.and_eq_true_iff.mp h1).2
    · intro h1
      simp [h1]
  · intro d t1 t2 t3 hd ha
    exact three_failures hd ha t1 t2 t3
  · intro d t
    simp [update_availability]
  · intro d t hd hu
    exact success_resets hd hu t

/-- Witness for C3: the fresh device, three failures at ticks 1, 2, 3,
then one success at tick 4. -/
theorem availability_hysteresis_spec_witness :
    (Reachable initDevice ∧ is_available initDevice = true
     ∧ Reachable (update_availability (update_availability
         (update_availability initDevice false 1) false 2) false 3)
     ∧ is_available (update_availability (update_availability
         (update_availability initDevice false 1) false 2) false 3) = false)
    ∧ (is_available (update_availability (update_availability
         (update_availability initDevice false 1) false 2) false 3) = false
       ∧ (update_availability (update_availability
           (update_availability initDevice false 1) false 2)
             false 3).last_unavailable_time ≠ none)
    ∧ (is_available (update_availability (update_availability
         (update_availability (update_availability initDevice false 1)
           false 2) false 3) true 4) = true
       ∧ (update_availability (update_availability (update_availability
           (update_availability initDevice false 1) false 2) false 3)
             true 4).last_unavailable_time = none) :=
  ⟨⟨Reachable.init, by decide,
    Reachable.step _ false 3 (Reachable.step _ false 2
      (Reachable.step _ false 1 Reachable.init)), by decide⟩,
   availability_hysteresis_spec.2.1 initDevice 1 2 3 Reachable.init
     (by decide),
   availability_hysteresis_spec.2.2.2 _ 4
     (Reachable.step _ false 3 (Reachable.step _ false 2
       (Reachable.step _ false 1 Reachable.init))) (by decide)⟩


/-! ### `update_parsed_data` validation (C5) -/

/-- C5 counterexample: a 7-byte response whose byte-count header
announces a 5-byte frame (`3 + 0 + 2 = 5 ≠ 7`) is not rejected: the
validation proceeds to the mapping even though the byte-count header
does not match the total length. -/
theorem update_parsed_data_validation_counterexample :
    3 + ([1, 3, 0, 0, 0, 0, 0] : List Nat).getD 2 0 + 2 ≠
        ([1, 3, 0, 0, 0, 0, 0] : List Nat).length
    ∧ update_parsed_data_validation [1, 3, 0, 0, 0, 0, 0] =
        ValidationOutcome.proceed := by decide

/-- C5 (amended): the payload validation fails exactly when the response
is shorter than 5 bytes, or shorter than the `3 + byte_count + 2` bytes
announced by the byte-count header (longer responses are accepted), or
the function-code byte has its high bit set; otherwise control proceeds
to the table-to-metric mapping. -/
theorem update_parsed_data_validation_spec (raw : List Nat) :
    update_parsed_data_validation raw = ValidationOutcome.fail ↔
      (raw.length < 5 ∨ raw.length < 3 + raw.getD 2 0 + 2
       ∨ raw.getD 1 0 &&& 0x80 ≠ 0) := by
  unfold update_parsed_data_validation
  repeat' split
  all_goals simp_all

/-! ### `parse_shunt_packet` (C6) -/

/-- C6: for every input of at least 12 bytes, `parse_shunt_packet` skips
the 2-byte manufacturer-id prefix and returns big-endian `u16/1000`
bus voltage, `u16/1000` shunt drop, signed `i16/1000` current,
`u16/100` consumed Ah, clamped `u8` state of charge, `u8 - 40`
temperature, and the trailing flags byte when present; shorter inputs
fail with a too-short error; the 13-byte example packet decodes to
`(12, 10, 1, 2.5, 80, 25, flags 1)`. -/
theorem parse_shunt_packet_spec (data : List Nat) (h : 12 ≤ data.length) :
    parse_shunt_packet data =
      .ok { bus_voltage := (beBytes ((data.drop 2).take 2) : ℚ) / 1000,
            shunt_drop := (beBytes ((data.drop 4).take 2) : ℚ) / 1000,
            current := (signedOf 2 (beBytes ((data.drop 6).take 2)) : ℚ) / 1000,
            consumed_ah := (beBytes ((data.drop 8).take 2) : ℚ) / 100,
            state_of_charge := max 0 (min (data.getD 10 0) 100),
            temperature := (data.getD 11 0 : ℤ) - 40,
            extra_flags :=
              if 12 < data.length then some (data.getD 12 0) else none }
    ∧ (∀ d2 : List Nat, d2.length < 12 →
        parse_shunt_packet d2 = .error "packet too short")
    ∧ parse_shunt_packet [0x4C, 0x00, 0x2E, 0xE0, 0x27, 0x10, 0x03, 0xE8,
        0x00, 0xFA, 0x50, 0x41, 0x01] =
      .ok { bus_voltage := 12, shunt_drop := 10, current := 1,
            consumed_ah := 5 / 2, state_of_charge := 80, temperature := 25,
            extra_flags := some 1 } := by
  refine ⟨?_, ?_, by simp [parse_shunt_packet, beBytes, signedOf]; norm_num⟩
  · unfold parse_shunt_packet
    rw [if_neg (by omega), if_neg (by omega)]
  · intro d2 h2
    unfold parse_shunt_packet
    rw [if_pos h2]

/-- Witness for C6 at the spec's 13-byte example packet. -/
theorem parse_shunt_packet_spec_witness :
    12 ≤ ([0x4C, 0x00, 0x2E, 0xE0, 0x27, 0x10, 0x03, 0xE8,
           0x00, 0xFA, 0x50, 0x41, 0x01] : List Nat).length
    ∧ parse_shunt_packet [0x4C, 0x00, 0x2E, 0xE0, 0x27, 0x10, 0x03, 0xE8,
        0x00, 0xFA, 0x50, 0x41, 0x01] =
      .ok { bus_voltage := 12, shunt_drop := 10, current := 1,
            consumed_ah := 5 / 2, state_of_charge := 80, temperature := 25,
            extra_flags := some 1 } :=
  ⟨by simp,
   (parse_shunt_packet_spec [0x4C, 0x00, 0x2E, 0xE0, 0x27, 0x10, 0x03,
       0xE8, 0x00, 0xFA, 0x50, 0x41, 0x01] (by simp)).2.2⟩

/-! ### Status-line rejection (C7) -/

/-- C7: every payload whose first two bytes are the ASCII marker
`b"AT"` (`0x41 0x54`) is rejected by `parse_shunt_ble_packet` before any
other processing; no such payload produces a metric mapping. -/
theorem status_line_rejected (data : List Nat)
    (h : data.take 2 = [0x41, 0x54]) :
    parse_shunt_ble_packet data = .error "status packet" := by
  have hlen : 2 ≤ data.length := by
    have h2 := congrArg List.length h
    simp [List.length_take] at h2
    omega
  unfold parse_shunt_ble_packet
  rw [if_pos ⟨hlen, h⟩]

/-- Witness for C7 at the prefix of an `AT+NM=...` status string. -/
theorem status_line_rejected_witness :
    ([0x41, 0x54, 0x2B, 0x4E] : List Nat).take 2 = [0x41, 0x54]
    ∧ parse_shunt_ble_packet [0x41, 0x54, 0x2B, 0x4E] =
        .error "status packet" :=
  ⟨by decide, status_line_rejected [0x41, 0x54, 0x2B, 0x4E] (by decide)⟩

/-! ### Dict laws for the merge (C8) -/

theorem dictGet_dictSet_self (m : Metrics) (k : String) (v : MVal) :
    dictGet (dictSet m k v) k = some v := by
  induction m with
  | nil => simp [dictSet, dictGet]
  | cons kv rest ih =>
    obtain ⟨k2, v2⟩ := kv
    by_cases h : k2 = k
    · simp [dictSet, dictGet, h]
    · simp [dictSet, dictGet, h, ih]

theorem dictGet_dictSet_ne (m : Metrics) {k k2 : String} (v : MVal)
    (h : k2 ≠ k) : dictGet (dictSet m k2 v) k = dictGet m k := by
  induction m with
  | nil => simp [dictSet, dictGet, h]
  | cons kv rest ih =>
    obtain ⟨k3, v3⟩ := kv
    by_cases h3 : k3 = k2
    · subst h3
      simp [dictSet, dictGet, h]
    · by_cases h4 : k3 = k
      · have h5 : ¬ (k = k2) := fun he => h he.symm
        subst h4
        simp [dictSet, dictGet, h5]
      · simp [dictSet, dictGet, h3, h4, ih]

theorem dictGet_eq_none_of_not_mem (m : Metrics) {k : String}
    (h : k ∉ m.map Prod.fst) : dictGet m k = none := by
  induction m with
  | nil => rfl
  | cons kv rest ih =>
    obtain ⟨k2, v2⟩ := kv
    simp only [List.map_cons, List.mem_cons] at h
    push_neg at h
    have h2 : k2 ≠ k := fun he => h.1 he.symm
    simp [dictGet, h2, ih h.2]

theorem dictGet_dictUpdate (m1 m2 : Metrics) (k : String)
    (hnd : (m2.map Prod.fst).Nodup) :
    dictGet (dictUpdate m1 m2) k =
      match dictGet m2 k with
      | some v => some v
      | none => dictGet m1 k := by
  induction m2 generalizing m1 with
  | nil => simp [dictUpdate, dictGet]
  | cons kv rest ih =>
    obtain ⟨k2, v2⟩ := kv
    simp only [List.map_cons, List.nodup_cons] at hnd
    obtain ⟨hk2, hrest⟩ := hnd
    have step : dictUpdate m1 ((k2, v2) :: rest) =
        dictUpdate (dictSet m1 k2 v2) rest := rfl
    rw [step, ih _ hrest]
    by_cases h : k2 = k
    · subst h
      rw [dictGet_eq_none_of_not_mem rest hk2]
      simp [dictGet, dictGet_dictSet_self]
    · cases hg : dictGet rest k
      · simp [dictGet, h, hg, dictGet_dictSet_ne _ _ h]
      · simp [dictGet, h, hg]

theorem parseNumeric44_keys_nodup {p : List Nat} {m : Metrics}
    (h : parseNumeric44 p = .ok m) : (m.map Prod.fst).Nodup := by
  unfold parseNumeric44 at h
  split at h
  · exact Except.noConfusion h
  · simp only [Except.ok.injEq] at h
    subst h
    simp

theorem parseGroup_keys_nodup {g : Nat} {p : List Nat} {m : Metrics}
    (h : parseGroup g p = .ok m) : (m.map Prod.fst).Nodup := by
  unfold parseGroup at h
  repeat' split at h
  all_goals try exact Except.noConfusion h
  all_goals simp only [Except.ok.injEq] at h
  all_goals subst h
  all_goals simp_all [dictGet, dictSet]

/-- Every successful `parse_shunt_ble_packet` result has pairwise
distinct keys. -/
theorem parse_keys_nodup {data : List Nat} {m : Metrics}
    (h : parse_shunt_ble_packet data = .ok m) :
    (m.map Prod.fst).Nodup := by
  unfold parse_shunt_ble_packet at h
  repeat' split at h
  · exact Except.noConfusion h
  · exact Except.noConfusion h
  · simp only [Except.ok.injEq] at h
    subst h
    simp [parseModelId]
  · exact parseNumeric44_keys_nodup h
  · exact parseGroup_keys_nodup h

/-- A payload that fails to decode contributes nothing to the merge. -/
theorem mergeMessages_skip (msg : List Nat) (msgs : List (List Nat))
    (e : String) (h : parse_shunt_ble_packet msg = .error e) :
    mergeMessages (msg :: msgs) = mergeMessages msgs := by
  unfold mergeMessages
  simp [h]

/-- C8 counterexample: the merge of a group-0x05 packet carrying
`battery_voltage = 0.0` and a group-0x04 packet carrying
`discharge_amps = 1.0` leaves `power_watts` absent, although both a
voltage field and a current field are present (the claim requires
`power_watts = round(0.0 * 1.0, 2)`): Python's `or` treats the
zero-valued voltage as missing. -/
theorem merge_power_zero_voltage_counterexample :
    dictGet (parse_shunt_ble_messages
      [[0x00, 0x01, 0x0C, 0x05, 0x00, 0x00, 0x00, 0x00, 0x00, 0x00, 0x00],
       [0x00, 0x01, 0x0C, 0x04, 0x00, 0x00, 0x00, 0xE8, 0x03, 0x00]])
      "battery_voltage" = some (.num 0)
    ∧ dictGet (parse_shunt_ble_messages
        [[0x00, 0x01, 0x0C, 0x05, 0x00, 0x00, 0x00, 0x00, 0x00, 0x00, 0x00],
         [0x00, 0x01, 0x0C, 0x04, 0x00, 0x00, 0x00, 0xE8, 0x03, 0x00]])
        "discharge_amps" = some (.num 1)
    ∧ dictGet (parse_shunt_ble_messages
        [[0x00, 0x01, 0x0C, 0x05, 0x00, 0x00, 0x00, 0x00, 0x00, 0x00, 0x00],
         [0x00, 0x01, 0x0C, 0x04, 0x00, 0x00, 0x00, 0xE8, 0x03, 0x00]])
        "power_watts" = none := by
  refine ⟨?_, ?_, ?_⟩ <;>
    simp [parse_shunt_ble_messages, mergeMessages, parse_shunt_ble_packet,
      parseGroup, beBytes, leBytes, signedOf, pyRound, bytes_to_int,
      dictGet, dictSet, dictUpdate, pyGet, pyOr, truthy, valQ] <;>
    norm_num

/-- C8 (amended): `parse_shunt_ble_messages` decodes each payload
independently, silently skips payloads that fail to decode, merges
successful results by key-overwrite with the later payload winning and
no key of a successful decode lost, and, after merging, sets
`power_watts = round(voltage * current, 2)` whenever the voltage
selector (`battery_voltage` if truthy, else `bus_voltage`) and the
current selector (`discharge_amps` if truthy, else `current`) both
produce a value — presence alone is not enough: a zero (falsy) preferred
field defers to the fallback key, and a missing fallback then suppresses
the product.  The spec's two example packets merge to
`battery_voltage = 13.468` together with `state_of_charge = 30.5`. -/
theorem merge_notification_batch_spec :
    (∀ msg msgs e, parse_shunt_ble_packet msg = .error e →
        parse_shunt_ble_messages (msg :: msgs) = parse_shunt_ble_messages msgs)
    ∧ (∀ acc data m k, parse_shunt_ble_packet data = .ok m →
        dictGet (dictUpdate acc m) k =
          match dictGet m k with
          | some v => some v
          | none => dictGet acc k)
    ∧ (∀ msgs v a,
        pyOr (pyGet (mergeMessages msgs) "battery_voltage")
          (pyGet (mergeMessages msgs) "bus_voltage") = some v →
        pyOr (pyGet (mergeMessages msgs) "discharge_amps")
          (pyGet (mergeMessages msgs) "current") = some a →
        dictGet (parse_shunt_ble_messages msgs) "power_watts" =
          some (.num (pyRound (valQ v * valQ a) 2)))
    ∧ dictGet (parse_shunt_ble_messages
        [[0x00, 0x01, 0x0C, 0x05, 0x06, 0x06, 0x00, 0x9C, 0x34, 0x00, 0x00,
          0x96, 0x37],
         [0x00, 0x01, 0x0C, 0x03, 0x0A, 0x06, 0x00, 0x31, 0x01, 0x9B, 0xEA]])
        "battery_voltage" = some (.num (13.468 : ℚ))
    ∧ dictGet (parse_shunt_ble_messages
        [[0x00, 0x01, 0x0C, 0x05, 0x06, 0x06, 0x00, 0x9C, 0x34, 0x00, 0x00,
          0x96, 0x37],
         [0x00, 0x01, 0x0C, 0x03, 0x0A, 0x06, 0x00, 0x31, 0x01, 0x9B, 0xEA]])
        "state_of_charge" = some (.num (30.5 : ℚ)) := by
  refine ⟨?_, ?_, ?_, ?_, ?_⟩
  · intro msg msgs e h
    unfold parse_shunt_ble_messages
    rw [mergeMessages_skip msg msgs e h]
  · intro acc data m k h
    exact dictGet_dictUpdate acc m k (parse_keys_nodup h)
  · intro msgs v a hv ha
    unfold parse_shunt_ble_messages
    rw [hv, ha]
    exact dictGet_dictSet_self _ _ _
  · simp [parse_shunt_ble_messages, mergeMessages, parse_shunt_ble_packet,
      parseGroup, beBytes, leBytes, signedOf, pyRound, bytes_to_int,
      dictGet, dictSet, dictUpdate, pyGet, pyOr, truthy, valQ] <;> norm_num
  · simp [parse_shunt_ble_messages, mergeMessages, parse_shunt_ble_packet,
      parseGroup, beBytes, leBytes, signedOf, pyRound, bytes_to_int,
      dictGet, dictSet, dictUpdate, pyGet, pyOr, truthy, valQ] <;> norm_num

/-- The spec's group-0x03 example packet decodes to
`state_of_charge = 30.5`. -/
theorem parse_group03_example :
    parse_shunt_ble_packet
      [0x00, 0x01, 0x0C, 0x03, 0x0A, 0x06, 0x00, 0x31, 0x01, 0x9B, 0xEA] =
      .ok [("packetType", .str "0x03"),
           ("state_of_charge", .num (30.5 : ℚ))] := by
  simp [parse_shunt_ble_packet, parseGroup, leBytes, beBytes,
    pyRound] <;> norm_num

/-- Witness for C8: the skip clause at a status-line payload and the
later-wins clause at the spec's group-0x03 packet. -/
theorem merge_notification_batch_spec_witness :
    (parse_shunt_ble_packet [0x41, 0x54, 0x2B] = .error "status packet"
     ∧ parse_shunt_ble_messages [[0x41, 0x54, 0x2B]] =
         parse_shunt_ble_messages [])
    ∧ (parse_shunt_ble_packet
         [0x00, 0x01, 0x0C, 0x03, 0x0A, 0x06, 0x00, 0x31, 0x01, 0x9B, 0xEA] =
         .ok [("packetType", .str "0x03"),
              ("state_of_charge", .num (30.5 : ℚ))]
       ∧ dictGet (dictUpdate [("battery_voltage", MVal.num 1)]
           [("packetType", .str "0x03"),
            ("state_of_charge", .num (30.5 : ℚ))]) "state_of_charge" =
         match dictGet [("packetType", .str "0x03"),
             ("state_of_charge", .num (30.5 : ℚ))] "state_of_charge" with
         | some v => some v
         | none => dictGet [("battery_voltage", MVal.num 1)]
             "state_of_charge") :=
  ⟨⟨by simp [parse_shunt_ble_packet],
    merge_notification_batch_spec.1 [0x41, 0x54, 0x2B] [] "status packet"
      (by simp [parse_shunt_ble_packet])⟩,
   parse_group03_example,
   merge_notification_batch_spec.2.1 [("battery_voltage", MVal.num 1)]
     [0x00, 0x01, 0x0C, 0x03, 0x0A, 0x06, 0x00, 0x31, 0x01, 0x9B, 0xEA]
     [("packetType", .str "0x03"), ("state_of_charge", .num (30.5 : ℚ))]
     "state_of_charge" parse_group03_example⟩

/-! ### Group-0x04 packets never carry `power_watts` (C10) -/

theorem parseNumeric44_tag {p : List Nat} {m : Metrics}
    (h : parseNumeric44 p = .ok m) :
    dictGet m "packetType" = some (.str "0x44") := by
  unfold parseNumeric44 at h
  split at h
  · exact Except.noConfusion h
  · simp only [Except.ok.injEq] at h
    subst h
    simp [dictGet]

theorem parseGroup_no_power {g : Nat} {p : List Nat} {m : Metrics}
    (h : parseGroup g p = .ok m)
    (hg : dictGet m "packetType" = some (.str "0x04")) :
    dictGet m "power_watts" = none := by
  unfold parseGroup at h
  repeat' split at h
  all_goals try exact Except.noConfusion h
  all_goals simp only [Except.ok.injEq] at h
  all_goals subst h
  all_goals simp_all [dictGet, dictSet]

/-- C10: a payload decoded by `parse_shunt_ble_packet` as a group-0x04
(discharge current) packet never carries `power_watts`: the metrics dict
is created fresh inside the call, so the `battery_voltage` key checked by
the in-branch power computation can never be present. -/
theorem group04_packet_no_power (data : List Nat) (m : Metrics)
    (h : parse_shunt_ble_packet data = .ok m)
    (hg : dictGet m "packetType" = some (.str "0x04")) :
    dictGet m "power_watts" = none := by
  unfold parse_shunt_ble_packet at h
  repeat' split at h
  · exact Except.noConfusion h
  · exact Except.noConfusion h
  · simp only [Except.ok.injEq] at h
    subst h
    simp [parseModelId, dictGet] at hg
  · rw [parseNumeric44_tag h] at hg
    simp at hg
  · exact parseGroup_no_power h hg

/-- A concrete group-0x04 packet decodes to `discharge_amps = 1.0` with
no `power_watts`. -/
theorem parse_group04_example :
    parse_shunt_ble_packet
      [0x00, 0x01, 0x0C, 0x04, 0x00, 0x00, 0x00, 0xE8, 0x03, 0x00] =
      .ok [("packetType", .str "0x04"), ("discharge_amps", .num 1)] := by
  simp [parse_shunt_ble_packet, parseGroup, leBytes, beBytes, signedOf,
    pyRound, dictGet, dictSet] <;> norm_num

/-- Witness for C10 at a concrete group-0x04 packet. -/
theorem group04_packet_no_power_witness :
    (parse_shunt_ble_packet
       [0x00, 0x01, 0x0C, 0x04, 0x00, 0x00, 0x00, 0xE8, 0x03, 0x00] =
       .ok [("packetType", .str "0x04"), ("discharge_amps", .num 1)]
     ∧ dictGet [("packetType", MVal.str "0x04"),
         ("discharge_amps", MVal.num 1)] "packetType" =
         some (.str "0x04"))
    ∧ dictGet [("packetType", MVal.str "0x04"),
        ("discharge_amps", MVal.num 1)] "power_watts" = none :=
  ⟨⟨parse_group04_example, by simp [dictGet]⟩,
   group04_packet_no_power
     [0x00, 0x01, 0x0C, 0x04, 0x00, 0x00, 0x00, 0xE8, 0x03, 0x00]
     [("packetType", .str "0x04"), ("discharge_amps", .num 1)]
     parse_group04_example (by simp [dictGet])⟩

/-! ### Modbus exchange loop (C9) -/

theorem readModbusLoop_any :
    ∀ (outcomes : List CmdOutcome) (acc : Bool),
      readModbusLoop outcomes acc = (acc || outcomes.any cmdSuccess)
  | [], acc => by simp [readModbusLoop]
  | .timeout :: rest, acc => by
      simp [readModbusLoop, cmdSuccess, readModbusLoop_any rest acc]
  | .response raw parserOk :: rest, acc => by
      simp [readModbusLoop, cmdSuccess, readModbusLoop_any rest
        (acc || update_parsed_data raw parserOk), Bool.or_assoc]

/-- C9: in the `_read_modbus_device` command loop, a per-command timeout
skips to the next command without aborting the cycle (the loop state is
untouched), and the exchange reports success exactly when at least one
command was read and parsed successfully. -/
theorem modbus_exchange_success_spec :
    (∀ rest acc,
        readModbusLoop (CmdOutcome.timeout :: rest) acc =
          readModbusLoop rest acc)
    ∧ (∀ outcomes, read_modbus_success outcomes = outcomes.any cmdSuccess)
    ∧ (∀ d conn outcomes now,
        (read_modbus_device d conn outcomes now).1 =
          (conn && outcomes.any cmdSuccess)) := by
  refine ⟨fun rest acc => rfl, ?_, ?_⟩
  · intro outcomes
    simp [read_modbus_success, readModbusLoop_any]
  · intro d conn outcomes now
    cases conn <;>
      simp [read_modbus_device, read_modbus_success, readModbusLoop_any]

/-! ### Availability accounting of the exchanges (C4) -/

/-- C4 counterexample: a shunt exchange that times out waiting for its
first notification returns failure with the device state unchanged — the
consecutive-failure counter is not incremented (an increment would have
made it 1). -/
theorem shunt_timeout_no_update_counterexample :
    (read_shunt_device initDevice ShuntTransport.notifyTimeout 0).1 = false
    ∧ (read_shunt_device initDevice
        ShuntTransport.notifyTimeout 0).2.failure_count = 0
    ∧ (update_availability initDevice false 0).failure_count = 1 := by
  refine ⟨rfl, rfl, rfl⟩

/-- C4 (amended): a Modbus exchange always updates the device's
availability with its final success flag (success resets the
consecutive-failure counter to 0, failure increments it), and a shunt
exchange does so on connection errors, on exceptions in the session
body, and on success — but a shunt exchange that times out waiting for
its first notification returns failure without updating availability at
all. -/
theorem exchange_availability_update_spec :
    (∀ d conn outcomes now,
        (read_modbus_device d conn outcomes now).2 =
          update_availability d (read_modbus_device d conn outcomes now).1
            now)
    ∧ (∀ d now, (read_shunt_device d ShuntTransport.connectError now).2 =
        update_availability d false now)
    ∧ (∀ d now, (read_shunt_device d ShuntTransport.bodyError now).2 =
        update_availability d false now)
    ∧ (∀ d pk mn now,
        (read_shunt_device d (ShuntTransport.notified pk mn) now).2 =
          update_availability d true now)
    ∧ (∀ d now, (read_shunt_device d ShuntTransport.notifyTimeout now).2 = d)
    ∧ (∀ d now, (update_availability d true now).failure_count = 0)
    ∧ (∀ d now,
        (update_availability d false now).failure_count =
          d.failure_count + 1) := by
  refine ⟨?_, fun d now => rfl, fun d now => rfl, fun d pk mn now => rfl,
    fun d now => rfl, fun d now => rfl, ?_⟩
  · intro d conn outcomes now
    cases conn <;> rfl
  · intro d now
    unfold update_availability
    simp only [Bool.false_eq_true, if_false]
    split <;> rfl

end Renogy
